import Mathlib

/-!
Shallow embedding of the hypernym-mcp-server core (TypeScript).

Sources embedded here:
* the resilient axios client `createAxiosInstance` with its retry
  interceptor (retry-count header, 429 / 5xx / network-error handling);
* the tool argument validator `isValidAnalyzeTextArgs`;
* the upstream request-body construction of the `analyze_text` and
  `semantic_compression` tool handlers;
* the `semantic_compression` response-text extraction (MCP handler and
  Express POST handler variants);
* the tool error-message mapping of the MCP handlers.

JavaScript runtime values that the code inspects dynamically (tool
arguments, upstream response bodies) are modelled by `JsonVal`;
`undefined` is modelled as a missing field, i.e. `Option JsonVal = none`.
-/

/-- A JSON-like JavaScript value.  `null` is a distinct value; a missing
object property (JS `undefined`) is represented as `Option.none` at use
sites. -/
inductive JsonVal where
  | str : String → JsonVal
  | num : Rat → JsonVal
  | bool : Bool → JsonVal
  | null : JsonVal
  | obj : List (String × JsonVal) → JsonVal
  | arr : List JsonVal → JsonVal

/-- JS property access `v.k`: a field lookup on an object, `undefined`
(`none`) on anything else or when the key is absent. -/
def JsonVal.getField : JsonVal → String → Option JsonVal
  | .obj fields, k => fields.lookup k
  | _, _ => none

/-- JS truthiness of a possibly-`undefined` value: `undefined`, `null`,
`""`, `0` and `false` are falsy; objects and arrays are truthy. -/
def jsTruthy : Option JsonVal → Bool
  | none => false
  | some (.str s) => decide (s ≠ "")
  | some (.num q) => decide (q ≠ 0)
  | some (.bool b) => b
  | some .null => false
  | some (.obj _) => true
  | some (.arr _) => true

/-- JS `a || b`: `a` if truthy, else `b`. -/
def jsOr (a b : Option JsonVal) : Option JsonVal :=
  if jsTruthy a then a else b

/-- JS `a ?? d`: default only when `a` is `undefined` or `null`. -/
def jsNullish : Option JsonVal → JsonVal → JsonVal
  | none, d => d
  | some .null, d => d
  | some v, _ => v

/-- `typeof v === 'string'` on a possibly-`undefined` property. -/
def typeofIsString : Option JsonVal → Bool
  | some (.str _) => true
  | _ => false

/-- `v === undefined || typeof v === 'number'` on a property. -/
def undefOrNumber : Option JsonVal → Bool
  | none => true
  | some (.num _) => true
  | _ => false

/-- `typeof v === 'object'` (true for objects, arrays and `null` in JS). -/
def typeofIsObject : JsonVal → Bool
  | .obj _ => true
  | .arr _ => true
  | .null => true
  | _ => false

/-- `args !== null`. -/
def notNullVal : JsonVal → Bool
  | .null => false
  | _ => true

/-- The runtime argument validator shared by `analyze_text` and
`semantic_compression`:

```ts
const isValidAnalyzeTextArgs = (args: any): args is AnalyzeTextArgs =>
  typeof args === 'object' &&
  args !== null &&
  typeof args.text === 'string' &&
  (args.min_compression_ratio === undefined ||
     typeof args.min_compression_ratio === 'number') &&
  (args.min_semantic_similarity === undefined ||
     typeof args.min_semantic_similarity === 'number');
```
-/
def isValidAnalyzeTextArgs (args : JsonVal) : Bool :=
  typeofIsObject args &&
  notNullVal args &&
  typeofIsString (args.getField "text") &&
  undefOrNumber (args.getField "min_compression_ratio") &&
  undefOrNumber (args.getField "min_semantic_similarity")

/-- The upstream request body built by both tool handlers:

```ts
{ essay_text: request.params.arguments.text,
  params: {
    min_compression_ratio: request.params.arguments.min_compression_ratio ?? 0.5,
    min_semantic_similarity: request.params.arguments.min_semantic_similarity ?? 0.8,
  } }
```
-/
def buildRequestBody (args : JsonVal) : JsonVal :=
  .obj [("essay_text", (args.getField "text").getD .null),
        ("params", .obj
          [("min_compression_ratio",
             jsNullish (args.getField "min_compression_ratio") (.num (1/2))),
           ("min_semantic_similarity",
             jsNullish (args.getField "min_semantic_similarity") (.num (4/5)))])]

/-! ## The resilient axios client (`createAxiosInstance` retry interceptor) -/

/-- An errored outcome of a single HTTP attempt: either the server
responded with an error status (`error.response` set), or the request was
made but no response was received (`error.request` set, a network
error). -/
inductive ClientError where
  | httpError (status : Nat) (headers : List (String × String)) (body : JsonVal)
  | networkError

/-- Outcome of a single HTTP attempt against the upstream service. -/
inductive UpstreamResp where
  | ok (body : JsonVal)
  | err (e : ClientError)

/-- Leading decimal digits of a string, as `parseInt(s, 10)` reads them
for the non-negative integers that occur in `retry-after` and
`x-retry-count` headers.  A string with no leading digit parses to `NaN`
in JS; a `NaN` millisecond delay is coerced to an immediate timeout by
`setTimeout`, so it is modelled as `0` here. -/
def jsParseIntNat (s : String) : Nat :=
  (s.toList.takeWhile Char.isDigit).foldl (fun n c => 10 * n + (c.toNat - 48)) 0

/-- Retry delay for a 429 response:

```ts
const retryAfterHeader = error.response.headers?.['retry-after'];
const retryAfter = retryAfterHeader && typeof retryAfterHeader === 'string'
  ? parseInt(retryAfterHeader, 10) * 1000
  : 10000; // Default to 10 seconds if no header
```

Header values are strings, so the `typeof` guard always holds; an empty
header value is falsy and also falls back to the 10-second default. -/
def parseRetryAfterMs (headers : List (String × String)) : Nat :=
  match headers.lookup "retry-after" with
  | some s => if s = "" then 10000 else jsParseIntNat s * 1000
  | none => 10000

/-- Exponential backoff used for 5xx statuses and network errors:
`Math.min(1000 * Math.pow(2, retryCount), 10000)`. -/
def backoffDelayMs (retryCount : Nat) : Nat :=
  min (1000 * 2 ^ retryCount) 10000

/-- The retry decision of the response interceptor for one failed
attempt, given the retry count parsed from the `x-retry-count` header:
`some d` means "wait `d` milliseconds and retry", `none` means the error
is rejected to the caller.  Mirrors:

  * the cap `if (retryCount >= 3) return Promise.reject(error);`
  * `case 429`: wait `parseRetryAfterMs`, retry;
  * `case 500 | 502 | 503 | 504`: wait `backoffDelayMs retryCount`, retry;
  * `default`: don't retry other status codes;
  * network error (`error.request`): retry only `if (retryCount < 2)`.
-/
def retryStep (retryCount : Nat) (e : ClientError) : Option Nat :=
  if retryCount ≥ 3 then none
  else
    match e with
    | .httpError status headers _ =>
      if status = 429 then some (parseRetryAfterMs headers)
      else if status = 500 ∨ status = 502 ∨ status = 503 ∨ status = 504 then
        some (backoffDelayMs retryCount)
      else none
    | .networkError =>
      if retryCount < 2 then some (backoffDelayMs retryCount) else none

/-- Final outcome of the whole retried call. -/
inductive ClientResult where
  | success (body : JsonVal)
  | failure (e : ClientError)

/-- One run of the retry loop, driven by an upstream trace that maps the
retry count of an attempt (0 for the initial attempt) to its outcome.
Returns `(attempts made, waits performed in ms, final result)`.

The recursion is fuelled structurally; `runRetry` supplies fuel 4, which
is never exhausted because `retryStep` refuses to retry once the retry
count reaches 3 (the `Max 3 retries` cap), so at most three recursive
calls occur. -/
def runRetryFuel : Nat → (Nat → UpstreamResp) → Nat → List Nat →
    Nat × List Nat × ClientResult
  | 0, _, rc, waits => (rc, waits, .failure .networkError)
  | fuel + 1, upstream, rc, waits =>
    match upstream rc with
    | .ok body => (rc + 1, waits, .success body)
    | .err e =>
      match retryStep rc e with
      | some d => runRetryFuel fuel upstream (rc + 1) (waits ++ [d])
      | none => (rc + 1, waits, .failure e)

/-- The retried call: initial attempt carries no `x-retry-count` header,
so the parsed retry count is 0. -/
def runRetry (upstream : Nat → UpstreamResp) : Nat × List Nat × ClientResult :=
  runRetryFuel 4 upstream 0 []

/-! ## `semantic_compression` response-text extraction -/

/-- The guard of the extraction in both `semantic_compression` branches:

```ts
if (response.data && response.data.results && response.data.results.response
    && response.data.results.response.texts)
```
-/
def hasTextsWrapper (data : JsonVal) : Bool :=
  jsTruthy (some data) &&
  jsTruthy (data.getField "results") &&
  jsTruthy ((data.getField "results").getD .null |>.getField "response") &&
  jsTruthy (((data.getField "results").getD .null |>.getField "response").getD .null
              |>.getField "texts")

/-- The `texts` object reached by the guard. -/
def textsOf (data : JsonVal) : JsonVal :=
  (((data.getField "results").getD .null |>.getField "response").getD .null
      |>.getField "texts").getD .null

/-- Extraction in the MCP `semantic_compression` tool handler:

```ts
let compressedText = '';
if (response.data && ... && response.data.results.response.texts) {
  compressedText = response.data.results.response.texts.suggested
    || response.data.results.response.texts.compressed || '';
} else {
  console.warn('Unexpected API response structure: ...');
  throw new Error('Unexpected API response structure');
}
```
-/
def mcpExtractCompressed (data : JsonVal) : Except String JsonVal :=
  if hasTextsWrapper data then
    .ok ((jsOr ((textsOf data).getField "suggested")
          (jsOr ((textsOf data).getField "compressed")
            (some (.str "")))).getD (.str ""))
  else
    .error "Unexpected API response structure"

/-- Extraction in the Express `POST /` `semantic_compression` branch,
which on an unrecognized shape only logs a warning and keeps
`compressedText = ''`, returning it as a normal success result:

```ts
let compressedText = '';
if (response.data && ... && response.data.results.response.texts) {
  compressedText = ...suggested || ...compressed || '';
} else {
  console.warn('Unexpected API response structure in HTTP handler');
}
return res.json({ ..., result: { content: [{ type: 'text', text: compressedText }] } });
```
-/
def httpExtractCompressed (data : JsonVal) : JsonVal :=
  if hasTextsWrapper data then
    (jsOr ((textsOf data).getField "suggested")
      (jsOr ((textsOf data).getField "compressed")
        (some (.str "")))).getD (.str "")
  else .str ""

/-! ## Tool error-message mapping (MCP handlers' catch branches) -/

/-- JS template-literal coercion of the value interpolated into
`Bad request: ${errorMessage}` and the fallback branch.  Only the string
case is exercised by the claims; the other constructors abstract JS
`toString` conventions. -/
def jsDisplay : JsonVal → String
  | .str s => s
  | .num q => toString q
  | .bool b => toString b
  | .null => "null"
  | .obj _ => "[object Object]"
  | .arr _ => ""

/-- The error message built in the `catch` branch of both tool handlers
for an axios error that carries a response:

```ts
let errorMessage = error.response?.data?.message
  || error.response?.data?.error || error.message;
if (error.response) {
  const status = error.response.status || 0;
  if (status === 429) {
    const retryAfter = error.response.headers?.['retry-after'];
    errorMessage = `Rate limit exceeded with Hypernym API. Please try again later. ${retryAfter ? `Retry after: ${retryAfter} seconds.` : ''}`;
  } else if (status === 400) {
    errorMessage = `Bad request: ${errorMessage}`;
  } else if (status === 401 || status === 403) {
    errorMessage = 'Authentication error with Hypernym API. Please check your API key.';
  } else if (status >= 500) {
    errorMessage = 'Hypernym API server error. Please try again later.';
  }
}
```

`toolErrorBase` is the initial `errorMessage` (`data.message || data.error
|| error.message`); `toolErrorMessage` is its value after the
status-keyed overrides. -/
def toolErrorBase (data : JsonVal) (axiosMsg : String) : JsonVal :=
  (jsOr (data.getField "message")
    (jsOr (data.getField "error") (some (.str axiosMsg)))).getD (.str axiosMsg)

/-- See `toolErrorBase`: the final error message after the status-keyed
overrides of the handlers' catch branches. -/
def toolErrorMessage (status : Nat) (headers : List (String × String))
    (data : JsonVal) (axiosMsg : String) : String :=
  if status = 429 then
    "Rate limit exceeded with Hypernym API. Please try again later. " ++
      (match headers.lookup "retry-after" with
       | some v => if v = "" then "" else "Retry after: " ++ v ++ " seconds."
       | none => "")
  else if status = 400 then "Bad request: " ++ jsDisplay (toolErrorBase data axiosMsg)
  else if status = 401 ∨ status = 403 then
    "Authentication error with Hypernym API. Please check your API key."
  else if 500 ≤ status then
    "Hypernym API server error. Please try again later."
  else jsDisplay (toolErrorBase data axiosMsg)

/-! ## The two tool operations, end to end -/

/-- Outcome of a tool invocation as seen by the MCP transport:

* `invalidParams` — the `McpError(ErrorCode.InvalidParams, ...)` thrown
  when `isValidAnalyzeTextArgs` rejects the arguments;
* `success` — a normal content result (for `analyze_text` the full
  upstream body, which the handler serializes with `JSON.stringify`; for
  `semantic_compression` the extracted text value);
* `apiError` — the `isError: true` content result built from an axios
  error;
* `internalError` — the `McpError(ErrorCode.InternalError, ...)` the
  outer catch wraps around a non-axios throw, such as the
  `'Unexpected API response structure'` error. -/
inductive ToolOutcome where
  | invalidParams (msg : String)
  | success (data : JsonVal)
  | apiError (msg : String)
  | internalError (msg : String)

/-- Message of an axios failure as surfaced by the tool handlers.
A network error carries axios's own `error.message`, which the handlers
pass through unchanged; the constant "Network Error" stands for it. -/
def clientErrorMessage : ClientError → String
  | .httpError status headers body => toolErrorMessage status headers body "Request failed"
  | .networkError => "Network Error"

/-- The `analyze_text` MCP tool handler: validate, then POST the built
body through the retried client; the upstream behaviour is a function of
the request body and the retry count of the attempt.  Returns the
outcome together with the number of HTTP attempts made (0 when
validation rejects the call before any network request). -/
def runAnalyzeTool (args : JsonVal)
    (upstream : JsonVal → Nat → UpstreamResp) : ToolOutcome × Nat :=
  if isValidAnalyzeTextArgs args then
    match runRetry (upstream (buildRequestBody args)) with
    | (n, _, .success data) => (.success data, n)
    | (n, _, .failure e) =>
        (.apiError ("Hypernym API error: " ++ clientErrorMessage e), n)
  else
    (.invalidParams
      "Invalid analyze_text arguments: expected \x7btext: string, min_compression_ratio?: number, min_semantic_similarity?: number\x7d", 0)

/-- The `semantic_compression` MCP tool handler: same validation and
upstream call as `analyze_text`, then the text extraction; the
extraction throw is rethrown past the axios check and wrapped by the
outer catch as an internal error. -/
def runSemanticTool (args : JsonVal)
    (upstream : JsonVal → Nat → UpstreamResp) : ToolOutcome × Nat :=
  if isValidAnalyzeTextArgs args then
    match runRetry (upstream (buildRequestBody args)) with
    | (n, _, .success data) =>
      match mcpExtractCompressed data with
      | .ok v => (.success v, n)
      | .error m => (.internalError ("Internal error: " ++ m), n)
    | (n, _, .failure e) =>
        (.apiError ("Hypernym API error: " ++ clientErrorMessage e), n)
  else
    (.invalidParams
      "Invalid semantic_compression arguments: expected \x7btext: string, min_compression_ratio?: number, min_semantic_similarity?: number\x7d", 0)

/-! ## Request-config objects and the retry loop's copy discipline

The interceptor retries via

```ts
const newConfig = { ...config };
const headers = { ...(newConfig.headers || {}) };
headers['x-retry-count'] = (retryCount + 1).toString();
newConfig.headers = headers as any;
return instance.request(newConfig);
```

i.e. it builds a shallow copy of the config, a copy of its headers
object, bumps the retry-count header on the copies only, and re-issues
the request with the fresh object.  To state that the original object is
never mutated, config objects live in an explicit heap (a list of
objects addressed by index); the copy step allocates a new object and
writes only to it. -/

/-- The parts of an axios request config the interceptor touches. -/
structure ReqConfig where
  url : String
  data : JsonVal
  headers : List (String × String)

/-- JS property assignment `headers[k] = v` on a (copied) headers
object: overwrite the existing entry or append a new one. -/
def setHeader (hs : List (String × String)) (k v : String) :
    List (String × String) :=
  if hs.any (fun p => p.1 = k) then
    hs.map (fun p => if p.1 = k then (k, v) else p)
  else hs ++ [(k, v)]

/-- Retry count parsed from the `x-retry-count` header:

```ts
const retryCountHeader = config.headers?.['x-retry-count'];
const retryCount = retryCountHeader && typeof retryCountHeader === 'string'
  ? parseInt(retryCountHeader, 10) : 0;
```
-/
def headerRetryCount (hs : List (String × String)) : Nat :=
  match hs.lookup "x-retry-count" with
  | some s => if s = "" then 0 else jsParseIntNat s
  | none => 0

/-- The fresh config the interceptor builds for the next attempt: a copy
of the caller's config whose copied headers carry the bumped
`x-retry-count`. -/
def nextRetryConfig (c : ReqConfig) : ReqConfig :=
  let hs := setHeader c.headers "x-retry-count"
    (toString (headerRetryCount c.headers + 1))
  { c with headers := hs }

/-- One retry iteration on the heap: read the config at `addr`, allocate
its bumped copy at a fresh address, and continue from the copy.  The
original heap cell is not written. -/
def heapRetryStep (st : List ReqConfig × Nat) : List ReqConfig × Nat :=
  match st.1[st.2]? with
  | some c => (st.1 ++ [nextRetryConfig c], st.1.length)
  | none => st

/-- `n` retry iterations of the copy discipline. -/
def heapRetrySteps : Nat → List ReqConfig × Nat → List ReqConfig × Nat
  | 0, st => st
  | n + 1, st => heapRetrySteps n (heapRetryStep st)

/-- Headers with the `x-retry-count` bookkeeping entry removed; two
header sets agreeing here agree on every header the caller set. -/
def headersSansRetryCount (hs : List (String × String)) :
    List (String × String) :=
  hs.filter (fun p => p.1 ≠ "x-retry-count")

/-! ## Theorems -/

/-- Each run of the retry loop makes at most `rc + fuel` attempts when
started at retry count `rc` with the given fuel. -/
theorem runRetryFuel_attempts_le (fuel : Nat) :
    ∀ (up : Nat → UpstreamResp) (rc : Nat) (w : List Nat),
      (runRetryFuel fuel up rc w).1 ≤ rc + fuel := by
  induction fuel with
  | zero =>
    intro up rc w
    simp [runRetryFuel]
  | succ n ih =>
    intro up rc w
    rw [runRetryFuel]
    split
    · show rc + 1 ≤ rc + (n + 1)
      omega
    · split
      · exact le_trans (ih up _ _) (by omega)
      · show rc + 1 ≤ rc + (n + 1)
        omega

/-- C1 counterexample: against an upstream that answers HTTP 503 to
every attempt, the resilient client makes 4 total HTTP attempts (the
initial attempt plus the 3 retries allowed by the `retryCount >= 3`
cap), not at most 3 as claimed. -/
theorem retry_503_makes_four_attempts :
    runRetry (fun _ => UpstreamResp.err (.httpError 503 [] .null)) =
      (4, [1000, 2000, 4000], .failure (.httpError 503 [] .null)) ∧
    ¬ (runRetry (fun _ => UpstreamResp.err (.httpError 503 [] .null))).1 ≤ 3 := by
  exact ⟨rfl, by decide⟩

/-- C1 (amended): for every sequence of upstream failures the resilient
client makes at most 4 total HTTP attempts (initial attempt plus up to 3
retries); when the upstream returns HTTP 503 on every attempt it stops
after exactly 4 attempts, with exponential-backoff waits of 1s, 2s and
4s, and the caller receives the server-error (503) response as the
failure result. -/
theorem retry_attempt_bound_and_503_outcome :
    (∀ up : Nat → UpstreamResp, (runRetry up).1 ≤ 4) ∧
    runRetry (fun _ => UpstreamResp.err (.httpError 503 [] .null)) =
      (4, [1000, 2000, 4000], .failure (.httpError 503 [] .null)) := by
  constructor
  · intro up
    simpa using runRetryFuel_attempts_le 4 up 0 []
  · rfl

/-- C2 counterexample: for the flatter response shape
`{response:{texts:{suggested:"Y"}}}` the `semantic_compression`
extraction does not return `"Y"`; it rejects the body with the
response-shape error, because the handler only ever looks under the
nested `results.response.texts` wrapper. -/
theorem flat_shape_not_extracted :
    mcpExtractCompressed
      (.obj [("response", .obj [("texts", .obj [("suggested", .str "Y")])])]) =
      .error "Unexpected API response structure" ∧
    mcpExtractCompressed
      (.obj [("response", .obj [("texts", .obj [("suggested", .str "Y")])])]) ≠
      .ok (.str "Y") :=
  ⟨rfl, fun h => Except.noConfusion h⟩

/-- C2 (amended): `semantic_compression` extracts the returned string by
checking only the nested path `results.response.texts.suggested`,
falling back to `results.response.texts.compressed`; given
`{results:{response:{texts:{suggested:"X"}}}}` with `X` non-empty it
returns exactly `X`, while the flatter `{response:{texts:...}}` shape
is rejected with the response-shape error rather than extracted. -/
theorem nested_extraction_behaviour (X : String) (hX : X ≠ "") :
    mcpExtractCompressed
      (.obj [("results", .obj [("response", .obj [("texts",
         .obj [("suggested", .str X)])])])]) = .ok (.str X) ∧
    mcpExtractCompressed
      (.obj [("results", .obj [("response", .obj [("texts",
         .obj [("compressed", .str X)])])])]) = .ok (.str X) ∧
    (∀ inner : JsonVal,
      mcpExtractCompressed (.obj [("response", inner)]) =
        .error "Unexpected API response structure") := by
  refine ⟨?_, ?_, fun inner => rfl⟩
  · simp [mcpExtractCompressed, hasTextsWrapper, textsOf, JsonVal.getField,
      jsOr, jsTruthy, List.lookup, hX]
  · simp [mcpExtractCompressed, hasTextsWrapper, textsOf, JsonVal.getField,
      jsOr, jsTruthy, List.lookup, hX]

/-- Witness for C2's amended theorem at `X = "X"`. -/
theorem nested_extraction_behaviour_witness :
    "X" ≠ "" ∧
    mcpExtractCompressed
      (.obj [("results", .obj [("response", .obj [("texts",
         .obj [("suggested", .str "X")])])])]) = .ok (.str "X") :=
  ⟨by decide, (nested_extraction_behaviour "X" (by decide)).1⟩

/-- C3 counterexample: for the 2xx body
`{results:{response:{texts:{}}}}` — in which no recognized path yields a
string — `semantic_compression`'s extraction returns the empty string as
a success result instead of failing with a response-shape error. -/
theorem empty_texts_returns_empty_success :
    mcpExtractCompressed
      (.obj [("results", .obj [("response", .obj [("texts", .obj [])])])]) =
      .ok (.str "") ∧
    (∀ msg : String,
      mcpExtractCompressed
        (.obj [("results", .obj [("response", .obj [("texts", .obj [])])])]) ≠
        .error msg) :=
  ⟨rfl, fun _ h => Except.noConfusion h⟩

/-- C3 (amended): the MCP `semantic_compression` handler fails with the
response-shape error exactly when the nested `results.response.texts`
wrapper is missing; when the wrapper is present but neither `suggested`
nor `compressed` yields a truthy value it returns the empty string as a
success result, and the Express `POST /` handler returns the empty
string as a success result even when the wrapper is missing. -/
theorem shape_error_only_when_wrapper_missing :
    (∀ data : JsonVal, hasTextsWrapper data = false →
       mcpExtractCompressed data = .error "Unexpected API response structure") ∧
    mcpExtractCompressed
      (.obj [("results", .obj [("response", .obj [("texts", .obj [])])])]) =
      .ok (.str "") ∧
    httpExtractCompressed (.obj []) = .str "" := by
  refine ⟨fun data h => ?_, rfl, rfl⟩
  simp [mcpExtractCompressed, h]

/-- Witness for C3's amended theorem at the body `{}`. -/
theorem shape_error_only_when_wrapper_missing_witness :
    hasTextsWrapper (.obj []) = false ∧
    mcpExtractCompressed (.obj []) =
      .error "Unexpected API response structure" :=
  ⟨rfl, shape_error_only_when_wrapper_missing.1 (.obj []) rfl⟩

/-- C4 counterexample: the empty string passes
`isValidAnalyzeTextArgs` (the validator checks `typeof text ===
'string'` only, never non-emptiness), so with `text = ""` both tools
proceed to make an HTTP request — 1 upstream attempt, not 0. -/
theorem empty_text_not_rejected :
    isValidAnalyzeTextArgs (.obj [("text", .str "")]) = true ∧
    runAnalyzeTool (.obj [("text", .str "")]) (fun _ _ => .ok .null) =
      (.success .null, 1) ∧
    runSemanticTool (.obj [("text", .str "")]) (fun _ _ => .ok .null) =
      (.internalError "Internal error: Unexpected API response structure", 1) ∧
    (1 : Nat) ≠ 0 :=
  ⟨rfl, rfl, rfl, by decide⟩

/-- C4 (amended): for arguments rejected by `isValidAnalyzeTextArgs`
(text missing or non-string, or a supplied ratio that is not a number —
but not the empty string, which the validator accepts), both operations
fail with the `InvalidParams` validation error, a class distinct from
the upstream-call failure classes, and zero HTTP attempts are made;
missing or non-string `text` always fails the validator. -/
theorem invalid_args_fail_before_network (args : JsonVal)
    (up : JsonVal → Nat → UpstreamResp)
    (h : isValidAnalyzeTextArgs args = false) :
    runAnalyzeTool args up =
      (.invalidParams "Invalid analyze_text arguments: expected \x7btext: string, min_compression_ratio?: number, min_semantic_similarity?: number\x7d", 0) ∧
    runSemanticTool args up =
      (.invalidParams "Invalid semantic_compression arguments: expected \x7btext: string, min_compression_ratio?: number, min_semantic_similarity?: number\x7d", 0) ∧
    (∀ a : JsonVal, typeofIsString (a.getField "text") = false →
       isValidAnalyzeTextArgs a = false) := by
  refine ⟨?_, ?_, fun a ha => ?_⟩
  · simp [runAnalyzeTool, h]
  · simp [runSemanticTool, h]
  · simp [isValidAnalyzeTextArgs, ha]

/-- Witness for C4's amended theorem at `args = {}` (text missing). -/
theorem invalid_args_fail_before_network_witness :
    isValidAnalyzeTextArgs (.obj []) = false ∧
    runAnalyzeTool (.obj []) (fun _ _ => .ok .null) =
      (.invalidParams "Invalid analyze_text arguments: expected \x7btext: string, min_compression_ratio?: number, min_semantic_similarity?: number\x7d", 0) :=
  ⟨rfl, (invalid_args_fail_before_network (.obj []) (fun _ _ => .ok .null) rfl).1⟩

/-- C5: for every valid invocation of `analyze_text` or
`semantic_compression` (both handlers build the same body via
`buildRequestBody`), the upstream request body is exactly
`{essay_text: <caller's text>, params: {min_compression_ratio: r,
min_semantic_similarity: s}}` where `r` is the caller's value if
supplied and `0.5` otherwise, and `s` is the caller's value if supplied
and `0.8` otherwise. -/
theorem upstream_body_exact_shape (args : JsonVal) (t : String)
    (hv : isValidAnalyzeTextArgs args = true)
    (ht : args.getField "text" = some (.str t)) :
    ∃ r s : Rat,
      buildRequestBody args =
        .obj [("essay_text", .str t),
              ("params", .obj [("min_compression_ratio", .num r),
                               ("min_semantic_similarity", .num s)])] ∧
      (args.getField "min_compression_ratio" = none → r = 1/2) ∧
      (∀ q : Rat, args.getField "min_compression_ratio" = some (.num q) → r = q) ∧
      (args.getField "min_semantic_similarity" = none → s = 4/5) ∧
      (∀ q : Rat, args.getField "min_semantic_similarity" = some (.num q) → s = q) := by
  simp only [isValidAnalyzeTextArgs, Bool.and_eq_true] at hv
  have h4 := hv.1.2
  have h5 := hv.2
  have hr : ∃ r : Rat,
      jsNullish (args.getField "min_compression_ratio") (.num (1/2)) = .num r ∧
      (args.getField "min_compression_ratio" = none → r = 1/2) ∧
      (∀ q : Rat, args.getField "min_compression_ratio" = some (.num q) → r = q) := by
    cases hm : args.getField "min_compression_ratio" with
    | none =>
      exact ⟨1/2, rfl, fun _ => rfl, fun q hq => Option.noConfusion hq⟩
    | some v =>
      rw [hm] at h4
      cases v with
      | num q =>
        refine ⟨q, rfl, fun hnone => Option.noConfusion hnone, fun q' hq' => ?_⟩
        simpa using hq'
      | str s => simp [undefOrNumber] at h4
      | bool b => simp [undefOrNumber] at h4
      | null => simp [undefOrNumber] at h4
      | obj fs => simp [undefOrNumber] at h4
      | arr xs => simp [undefOrNumber] at h4
  have hs : ∃ s : Rat,
      jsNullish (args.getField "min_semantic_similarity") (.num (4/5)) = .num s ∧
      (args.getField "min_semantic_similarity" = none → s = 4/5) ∧
      (∀ q : Rat, args.getField "min_semantic_similarity" = some (.num q) → s = q) := by
    cases hm : args.getField "min_semantic_similarity" with
    | none =>
      exact ⟨4/5, rfl, fun _ => rfl, fun q hq => Option.noConfusion hq⟩
    | some v =>
      rw [hm] at h5
      cases v with
      | num q =>
        refine ⟨q, rfl, fun hnone => Option.noConfusion hnone, fun q' hq' => ?_⟩
        simpa using hq'
      | str s => simp [undefOrNumber] at h5
      | bool b => simp [undefOrNumber] at h5
      | null => simp [undefOrNumber] at h5
      | obj fs => simp [undefOrNumber] at h5
      | arr xs => simp [undefOrNumber] at h5
  obtain ⟨r, hrEq, hr1, hr2⟩ := hr
  obtain ⟨s, hsEq, hs1, hs2⟩ := hs
  refine ⟨r, s, ?_, hr1, hr2, hs1, hs2⟩
  unfold buildRequestBody
  rw [ht, hrEq, hsEq]
  rfl

/-- Witness for C5 at a concrete valid invocation with one ratio
supplied and one omitted. -/
theorem upstream_body_exact_shape_witness :
    isValidAnalyzeTextArgs
      (.obj [("text", .str "abc"), ("min_compression_ratio", .num (3/10))]) = true ∧
    (JsonVal.obj [("text", .str "abc"),
        ("min_compression_ratio", .num (3/10))]).getField "text" =
      some (.str "abc") ∧
    ∃ r s : Rat,
      buildRequestBody
        (.obj [("text", .str "abc"), ("min_compression_ratio", .num (3/10))]) =
        .obj [("essay_text", .str "abc"),
              ("params", .obj [("min_compression_ratio", .num r),
                               ("min_semantic_similarity", .num s)])] ∧
      ((JsonVal.obj [("text", .str "abc"),
          ("min_compression_ratio", .num (3/10))]).getField
            "min_compression_ratio" = none → r = 1/2) ∧
      (∀ q : Rat, (JsonVal.obj [("text", .str "abc"),
          ("min_compression_ratio", .num (3/10))]).getField
            "min_compression_ratio" = some (.num q) → r = q) ∧
      ((JsonVal.obj [("text", .str "abc"),
          ("min_compression_ratio", .num (3/10))]).getField
            "min_semantic_similarity" = none → s = 4/5) ∧
      (∀ q : Rat, (JsonVal.obj [("text", .str "abc"),
          ("min_compression_ratio", .num (3/10))]).getField
            "min_semantic_similarity" = some (.num q) → s = q) :=
  ⟨rfl, rfl, upstream_body_exact_shape _ "abc" rfl rfl⟩

/-- A status handled by neither the 429 case nor the 5xx cases of the
interceptor's switch falls to its `default` arm and is never retried. -/
theorem retryStep_default_none (rc s : Nat) (hs : List (String × String))
    (b : JsonVal) (h429 : s ≠ 429)
    (h5 : ¬ (s = 500 ∨ s = 502 ∨ s = 503 ∨ s = 504)) :
    retryStep rc (.httpError s hs b) = none := by
  unfold retryStep
  by_cases hrc : 3 ≤ rc
  · rw [if_pos hrc]
  · rw [if_neg hrc]
    show (if s = 429 then some (parseRetryAfterMs hs)
          else if s = 500 ∨ s = 502 ∨ s = 503 ∨ s = 504 then
            some (backoffDelayMs rc)
          else none) = none
    rw [if_neg h429, if_neg h5]

/-- C6: within the retry budget, a 429 response is retried after the
delay read in seconds from the `retry-after` header (milliseconds =
header value × 1000); when the header is absent the delay defaults to
10000 ms, which lies in the 5–10 second range; in the concrete scenario
"429 with retry-after: 2, then 200" the client waits 2000 ms ≥ 2 s,
makes exactly 2 attempts (one retry), and returns the success payload;
and each retry re-issues a config whose body is the caller's body
unchanged. -/
theorem rate_limit_retry_policy (body : JsonVal) :
    (∀ (rc : Nat) (hs : List (String × String)) (b : JsonVal), rc < 3 →
       retryStep rc (.httpError 429 hs b) = some (parseRetryAfterMs hs)) ∧
    (∀ hs : List (String × String), hs.lookup "retry-after" = none →
       parseRetryAfterMs hs = 10000) ∧
    (5 * 1000 ≤ 10000 ∧ 10000 ≤ 10 * 1000) ∧
    runRetry (fun rc => if rc = 0
        then .err (.httpError 429 [("retry-after", "2")] .null)
        else .ok body) = (2, [2000], .success body) ∧
    2 * 1000 ≤ 2000 ∧
    (∀ c : ReqConfig, (nextRetryConfig c).data = c.data) := by
  refine ⟨fun rc hs b h => ?_, fun hs h => ?_, ⟨by omega, by omega⟩, rfl,
    by omega, fun c => rfl⟩
  · unfold retryStep
    rw [if_neg (by omega)]
    show (if (429 : Nat) = 429 then some (parseRetryAfterMs hs)
          else if (429 : Nat) = 500 ∨ (429 : Nat) = 502 ∨ (429 : Nat) = 503 ∨
            (429 : Nat) = 504 then some (backoffDelayMs rc)
          else none) = some (parseRetryAfterMs hs)
    rw [if_pos rfl]
  · unfold parseRetryAfterMs
    rw [h]

/-- Witness for C6 at retry count 0, the `retry-after: 2` header, and
the empty header set. -/
theorem rate_limit_retry_policy_witness :
    retryStep 0 (.httpError 429 [("retry-after", "2")] .null) = some 2000 ∧
    parseRetryAfterMs [] = 10000 :=
  ⟨(rate_limit_retry_policy .null).1 0 [("retry-after", "2")] .null (by omega),
   (rate_limit_retry_policy .null).2.1 [] rfl⟩

/-- C7: within the retry budget, a 500/502/503/504 response is retried
after the exponential-backoff delay `min(1000·2^retryCount, 10000)` —
1000 ms on the first failure, doubling per attempt and capped at
10000 ms — while any other 4xx status (≠ 429) is never retried: the
call fails after a single attempt, propagating that exact response to
the caller. -/
theorem server_error_backoff_policy :
    (∀ (rc s : Nat) (hs : List (String × String)) (b : JsonVal), rc < 3 →
       (s = 500 ∨ s = 502 ∨ s = 503 ∨ s = 504) →
       retryStep rc (.httpError s hs b) = some (backoffDelayMs rc)) ∧
    backoffDelayMs 0 = 1000 ∧
    (∀ k : Nat, backoffDelayMs (k + 1) = min (2 * backoffDelayMs k) 10000) ∧
    (∀ k : Nat, backoffDelayMs k ≤ 10000) ∧
    (∀ (rc s : Nat) (hs : List (String × String)) (b : JsonVal),
       400 ≤ s → s < 500 → s ≠ 429 →
       retryStep rc (.httpError s hs b) = none) ∧
    (∀ (s : Nat) (hs : List (String × String)) (b : JsonVal),
       400 ≤ s → s < 500 → s ≠ 429 →
       runRetry (fun _ => .err (.httpError s hs b)) =
         (1, [], .failure (.httpError s hs b))) := by
  refine ⟨fun rc s hs b h h5 => ?_, rfl, fun k => ?_, fun k => ?_,
    fun rc s hs b h4 h5 h429 => ?_, fun s hs b h4 h5 h429 => ?_⟩
  · unfold retryStep
    rw [if_neg (by omega)]
    show (if s = 429 then some (parseRetryAfterMs hs)
          else if s = 500 ∨ s = 502 ∨ s = 503 ∨ s = 504 then
            some (backoffDelayMs rc)
          else none) = some (backoffDelayMs rc)
    rw [if_neg (by omega), if_pos h5]
  · unfold backoffDelayMs
    rw [pow_succ, ← mul_assoc]
    generalize (1000 * 2 ^ k : Nat) = a
    omega
  · exact min_le_right _ _
  · exact retryStep_default_none rc s hs b h429 (by omega)
  · have hnone := retryStep_default_none 0 s hs b h429 (by omega)
    simp [runRetry, runRetryFuel, hnone]

/-- Witness for C7 at retry counts 0 and 1 with statuses 502 and 404. -/
theorem server_error_backoff_policy_witness :
    retryStep 0 (.httpError 502 [] .null) = some (backoffDelayMs 0) ∧
    retryStep 1 (.httpError 503 [] .null) = some (backoffDelayMs 1) ∧
    retryStep 0 (.httpError 404 [] .null) = none ∧
    runRetry (fun _ => .err (.httpError 404 [] .null)) =
      (1, [], .failure (.httpError 404 [] .null)) :=
  ⟨server_error_backoff_policy.1 0 502 [] .null (by omega) (by omega),
   server_error_backoff_policy.1 1 503 [] .null (by omega) (by omega),
   server_error_backoff_policy.2.2.2.2.1 0 404 [] .null (by omega) (by omega)
     (by omega),
   server_error_backoff_policy.2.2.2.2.2 404 [] .null (by omega) (by omega)
     (by omega)⟩

/-- C8: a 401 or 403 response is never retried — the call fails after a
single attempt — and the error message surfaced for it by the tool
handlers is the dedicated authentication-error message, distinct from
the generic server-error (5xx) message. -/
theorem auth_errors_never_retried_distinct :
    (∀ (rc : Nat) (hs : List (String × String)) (b : JsonVal),
       retryStep rc (.httpError 401 hs b) = none) ∧
    (∀ (rc : Nat) (hs : List (String × String)) (b : JsonVal),
       retryStep rc (.httpError 403 hs b) = none) ∧
    (∀ (hs : List (String × String)) (b : JsonVal),
       runRetry (fun _ => .err (.httpError 401 hs b)) =
         (1, [], .failure (.httpError 401 hs b))) ∧
    (∀ (hs : List (String × String)) (b : JsonVal),
       runRetry (fun _ => .err (.httpError 403 hs b)) =
         (1, [], .failure (.httpError 403 hs b))) ∧
    (∀ (hs : List (String × String)) (d : JsonVal) (m : String),
       toolErrorMessage 401 hs d m =
         "Authentication error with Hypernym API. Please check your API key.") ∧
    (∀ (hs : List (String × String)) (d : JsonVal) (m : String),
       toolErrorMessage 403 hs d m =
         "Authentication error with Hypernym API. Please check your API key.") ∧
    (∀ (s : Nat) (hs : List (String × String)) (d : JsonVal) (m : String),
       500 ≤ s → toolErrorMessage s hs d m =
         "Hypernym API server error. Please try again later.") ∧
    ("Authentication error with Hypernym API. Please check your API key." ≠
       "Hypernym API server error. Please try again later.") := by
  refine ⟨fun rc hs b => retryStep_default_none rc 401 hs b (by omega) (by omega),
    fun rc hs b => retryStep_default_none rc 403 hs b (by omega) (by omega),
    fun hs b => rfl, fun hs b => rfl, fun hs d m => rfl, fun hs d m => rfl,
    fun s hs d m h => ?_, by decide⟩
  unfold toolErrorMessage
  rw [if_neg (by omega), if_neg (by omega), if_neg (by omega), if_pos h]

/-- Witness for C8's server-error conjunct at status 503. -/
theorem auth_errors_never_retried_distinct_witness :
    (500 : Nat) ≤ 503 ∧
    toolErrorMessage 503 [] .null "boom" =
      "Hypernym API server error. Please try again later." :=
  ⟨by omega,
   auth_errors_never_retried_distinct.2.2.2.2.2.2.1 503 [] .null "boom" (by omega)⟩

/-- One copy-and-bump iteration only appends to the heap: every cell
that existed before is unchanged. -/
theorem heapRetryStep_getElem (st : List ReqConfig × Nat) (a : Nat)
    (ha : a < st.1.length) : (heapRetryStep st).1[a]? = st.1[a]? := by
  unfold heapRetryStep
  cases h : st.1[st.2]? with
  | none => rfl
  | some c => exact List.getElem?_append_left ha

/-- The heap never shrinks across a copy-and-bump iteration. -/
theorem heapRetryStep_length (st : List ReqConfig × Nat) :
    st.1.length ≤ (heapRetryStep st).1.length := by
  unfold heapRetryStep
  cases h : st.1[st.2]? with
  | none => exact le_refl _
  | some c => simp

/-- Iterating the copy-and-bump step leaves every pre-existing heap cell
unchanged. -/
theorem heapRetrySteps_getElem (n : Nat) :
    ∀ (st : List ReqConfig × Nat) (a : Nat), a < st.1.length →
      (heapRetrySteps n st).1[a]? = st.1[a]? := by
  induction n with
  | zero => intro st a ha; rfl
  | succ m ih =>
    intro st a ha
    have h2 : a < (heapRetryStep st).1.length :=
      lt_of_lt_of_le ha (heapRetryStep_length st)
    calc (heapRetrySteps (m + 1) st).1[a]?
        = (heapRetrySteps m (heapRetryStep st)).1[a]? := rfl
      _ = (heapRetryStep st).1[a]? := ih _ a h2
      _ = st.1[a]? := heapRetryStep_getElem st a ha

/-- Overwriting the value at key `k` in every matching entry leaves the
non-`k` entries of a header list untouched. -/
theorem filter_map_overwrite (t : List (String × String)) (k v : String) :
    (t.map (fun p => if p.1 = k then (k, v) else p)).filter
        (fun p => p.1 ≠ k) =
      t.filter (fun p => p.1 ≠ k) := by
  induction t with
  | nil => rfl
  | cons p t ih =>
    by_cases hp : p.1 = k
    · simp [hp, List.filter_cons]
      simpa using ih
    · simp [hp, List.filter_cons]
      simpa using ih

/-- Setting the `x-retry-count` header (on the copied headers object)
changes no other header. -/
theorem headersSansRetryCount_setHeader (hs : List (String × String))
    (v : String) :
    headersSansRetryCount (setHeader hs "x-retry-count" v) =
      headersSansRetryCount hs := by
  unfold headersSansRetryCount setHeader
  by_cases h : hs.any (fun p => p.1 = "x-retry-count")
  · rw [if_pos h]
    exact filter_map_overwrite hs _ v
  · rw [if_neg h, List.filter_append]
    simp [List.filter_cons]

/-- C9: across the whole retry loop the original caller's request-config
object is never mutated — after any number of copy-and-bump retry
iterations every pre-existing heap cell (in particular the caller's
config, whatever its address) still holds its original value — and each
retry's fresh config preserves the URL, the body, and every header other
than the `x-retry-count` bookkeeping entry. -/
theorem retry_loop_preserves_original_config (n : Nat)
    (heap : List ReqConfig) (addr a : Nat) (ha : a < heap.length) :
    (heapRetrySteps n (heap, addr)).1[a]? = heap[a]? ∧
    (∀ c : ReqConfig, (nextRetryConfig c).url = c.url ∧
       (nextRetryConfig c).data = c.data ∧
       headersSansRetryCount (nextRetryConfig c).headers =
         headersSansRetryCount c.headers) :=
  ⟨heapRetrySteps_getElem n (heap, addr) a ha,
   fun c => ⟨rfl, rfl, headersSansRetryCount_setHeader c.headers _⟩⟩

/-- Witness for C9: three retry iterations over a singleton heap leave
the original config at address 0 unchanged. -/
theorem retry_loop_preserves_original_config_witness :
    (0 : Nat) < ([(⟨"/analyze_sync", .str "body",
        [("X-API-Key", "k")]⟩ : ReqConfig)]).length ∧
    (heapRetrySteps 3 ([⟨"/analyze_sync", .str "body",
        [("X-API-Key", "k")]⟩], 0)).1[0]? =
      some ⟨"/analyze_sync", .str "body", [("X-API-Key", "k")]⟩ :=
  ⟨by simp,
   (retry_loop_preserves_original_config 3
      [⟨"/analyze_sync", .str "body", [("X-API-Key", "k")]⟩] 0 0 (by simp)).1⟩

/-- C10: any JS numbers supplied as the two ratio arguments — including
values outside `[0,1]` such as `-1` or `5` — pass
`isValidAnalyzeTextArgs` (only `typeof` is checked, never the range) and
are forwarded verbatim inside the upstream request body. -/
theorem range_unchecked_values_forwarded (t : String) (q r : Rat) :
    isValidAnalyzeTextArgs
      (.obj [("text", .str t), ("min_compression_ratio", .num q),
             ("min_semantic_similarity", .num r)]) = true ∧
    buildRequestBody
      (.obj [("text", .str t), ("min_compression_ratio", .num q),
             ("min_semantic_similarity", .num r)]) =
      .obj [("essay_text", .str t),
            ("params", .obj [("min_compression_ratio", .num q),
                             ("min_semantic_similarity", .num r)])] :=
  ⟨rfl, rfl⟩
